import Mathlib

/-!
# Verification of the tor-monitor-be stock ledger and agent orchestration

Shallow embedding of the inventory/sales backend:
* `app/db/crud.py` — CRUD operations, the stock-ledger transaction
  `create_sales_with_stock_deduction`, and the dashboard aggregation queries;
* `app/routers/sales.py` — the HTTP sale-creation route `create_sales`;
* `app/services/agent.py` — the conversational agent: per-user bounded memory
  and the `chat` entry point with its domain gate short-circuit;
* `app/utils/agent_tools.py` — the `get_all_goods` tool wrapper.

UUIDs are modelled as `Nat` identifiers, Python numbers as `Int`/`ℚ`, the
database as in-memory lists of rows, and a raised `HTTPException` as the
`Except.error` branch of a result.
-/

deriving instance DecidableEq for Except

namespace TorMonitor

/-- A calendar timestamp, used for `sale_date` and `created_at`.
(`db/models.py` is not under `src/`; the field shapes follow the spec's data
model and the Pydantic schemas in `app/schemas/`.) -/
structure DateTime where
  year : Nat
  month : Nat
  day : Nat
  hour : Nat
  minute : Nat
  second : Nat
deriving DecidableEq, Repr

/-- Modelled from the spec: the Goods row (`db/models.py` is absent from
`src/`): identity, owning user id, name, optional category, price,
stock_quantity, creation timestamp. -/
structure Goods where
  id : Nat
  user_id : Nat
  name : String
  category : Option String
  price : ℚ
  stock_quantity : Int
  created_at : DateTime
deriving DecidableEq, Repr

/-- Modelled from the spec: the Sales row (`db/models.py` is absent from
`src/`): identity, owning user id, goods reference, quantity, sale date,
total_profit. `total_profit` is nullable, matching the `SalesBase` schema
(`total_profit: Optional[float] = None`); the HTTP route creates rows
without it. -/
structure Sales where
  id : Nat
  user_id : Nat
  goods_id : Nat
  quantity : Int
  sale_date : DateTime
  total_profit : Option ℚ
deriving DecidableEq, Repr

/-- The database: the goods and sales tables. -/
structure DB where
  goods : List Goods
  sales : List Sales
deriving DecidableEq, Repr

/-- `fastapi.HTTPException(status_code, detail)`. -/
structure HTTPError where
  status_code : Nat
  detail : String
deriving DecidableEq, Repr

/-- Python `str(HTTPException)` renders as `"{status_code}: {detail}"`. -/
def errStr (e : HTTPError) : String :=
  let code := e.status_code
  let detail := e.detail
  s!"{code}: {detail}"

/-- The SQL query
`select(Goods).where(Goods.id == goods_id, Goods.user_id == user_id)` followed
by `.first()`. -/
def firstGoods (db : DB) (goods_id : Nat) (user_id : Nat) : Option Goods :=
  (db.goods.filter (fun g => g.id == goods_id && g.user_id == user_id)).head?

/-- The insufficient-stock message of `create_sales_with_stock_deduction`. -/
def insufficientMsg (available requested : Int) : String :=
  s!"Insufficient stock. Available: {available}, Requested: {requested}"

/-- `crud.create_sales_with_stock_deduction` (`app/db/crud.py`): load the
goods row for the caller, fail 404 when absent, fail 400 when
`stock_quantity < quantity`, otherwise compute `total_profit = price *
quantity`, deduct the stock and insert the sale. A raised `HTTPException`
leaves the database unchanged (nothing is flushed before `db.commit()`);
`newId` stands for the fresh primary key the database assigns. -/
def create_sales_with_stock_deduction (db : DB) (goods_id : Nat)
    (quantity : Int) (sale_date : DateTime) (newId : Nat) (user_id : Nat) :
    Except HTTPError Sales × DB :=
  match firstGoods db goods_id user_id with
  | none => (.error ⟨404, "Goods not found"⟩, db)
  | some goods =>
    if goods.stock_quantity < quantity then
      (.error ⟨400, insufficientMsg goods.stock_quantity quantity⟩, db)
    else
      let total_profit : ℚ := goods.price * (quantity : ℚ)
      let goods' : Goods := { goods with stock_quantity := goods.stock_quantity - quantity }
      let new_sales : Sales :=
        { id := newId, user_id := user_id, goods_id := goods_id,
          quantity := quantity, sale_date := sale_date,
          total_profit := some total_profit }
      (.ok new_sales,
        { goods := db.goods.map (fun x => if x.id == goods.id then goods' else x),
          sales := db.sales ++ [new_sales] })

/-- `SalesCreate` request schema (`app/schemas/sales.py`). -/
structure SalesCreate where
  goods_id : Nat
  quantity : Int
  sale_date : DateTime
deriving DecidableEq, Repr

/-- The HTTP route `create_sales` (`app/routers/sales.py`,
`POST /api/sales/`): `db.add(Sales(**sales.model_dump(), user_id=user.id))`
then `db.commit()` — the sale row is inserted directly, with `total_profit`
left at its default and no goods row touched. -/
def router_create_sales (db : DB) (sales : SalesCreate) (user_id : Nat)
    (newId : Nat) : DB × String :=
  ({ db with
      sales := db.sales ++
        [{ id := newId, user_id := user_id, goods_id := sales.goods_id,
           quantity := sales.quantity, sale_date := sales.sale_date,
           total_profit := none }] },
   "Sales created successfully")

/-- `SalesUpdate` request schema (`app/schemas/sales.py`): only `quantity` and
`sale_date` exist as updatable fields; `none` models a field that was not set
in the request (`model_dump(exclude_unset=True)` omits it). -/
structure SalesUpdate where
  quantity : Option Int
  sale_date : Option DateTime
deriving DecidableEq, Repr

/-- `GoodsUpdate` request schema (`app/schemas/goods.py`). -/
structure GoodsUpdate where
  name : Option String
  category : Option String
  price : Option ℚ
  stock_quantity : Option Int
deriving DecidableEq, Repr

/-- `crud.update_db_element` applied to a `Sales` row with a `SalesUpdate`
payload: each field present in `model_dump(exclude_unset=True)` is `setattr`'d
onto the row; the others keep their values. -/
def update_db_element_sales (s : Sales) (u : SalesUpdate) : Sales :=
  { s with quantity := u.quantity.getD s.quantity,
           sale_date := u.sale_date.getD s.sale_date }

/-- `crud.update_db_element` applied to a `Goods` row with a `GoodsUpdate`
payload. -/
def update_db_element_goods (g : Goods) (u : GoodsUpdate) : Goods :=
  { g with name := u.name.getD g.name,
           category := (match u.category with | some c => some c | none => g.category),
           price := u.price.getD g.price,
           stock_quantity := u.stock_quantity.getD g.stock_quantity }

/-- The `PUT /api/sales/{sales_id}` route body: the row with that id is
updated in place via `update_db_element`. -/
def update_sales_in_db (db : DB) (sales_id : Nat) (u : SalesUpdate) : DB :=
  { db with
      sales := db.sales.map (fun x => if x.id == sales_id then update_db_element_sales x u else x) }

/-- The `PUT /api/goods/{goods_id}` route body: the row with that id is
updated in place via `update_db_element`. -/
def update_goods_in_db (db : DB) (goods_id : Nat) (u : GoodsUpdate) : DB :=
  { db with
      goods := db.goods.map (fun x => if x.id == goods_id then update_db_element_goods x u else x) }

/-! ## Reporting queries (`app/db/crud.py`) -/

/-- SQL `SUM` over a nullable column: `NULL` values are skipped, and the sum
of no (non-null) values is `NULL`. -/
def sqlSum (xs : List (Option ℚ)) : Option ℚ :=
  if (xs.filterMap id).isEmpty then none else some (xs.filterMap id).sum

/-- The rows selected by the `get_monthly_revenue` query:
`Sales.user_id == user_id` and `extract(year/month, sale_date)` matching. -/
def monthSales (db : DB) (user_id year month : Nat) : List Sales :=
  db.sales.filter
    (fun s => s.user_id == user_id && s.sale_date.year == year && s.sale_date.month == month)

/-- `crud.get_monthly_revenue`: `select(func.sum(Sales.total_profit))` for the
user's sales in the given month, then `float(result) if result else 0.0`
(both a `NULL` sum and a zero sum render as `0.0`). -/
def get_monthly_revenue (db : DB) (user_id year month : Nat) : ℚ :=
  match sqlSum ((monthSales db user_id year month).map (fun s => s.total_profit)) with
  | none => 0
  | some v => if v == 0 then 0 else v

/-- The spec's description of `monthlyRevenue`: the sum of `total_profit`
over the user's sales whose `sale_date` falls in the given calendar month
(a missing `total_profit` contributes nothing). -/
def monthlyRevenue_spec (db : DB) (user_id year month : Nat) : ℚ :=
  ((monthSales db user_id year month).map (fun s => (s.total_profit).getD 0)).sum

/-! ## Goods listing (`crud.get_all_goods`) and its agent tool wrapper -/

/-- SQL `ILIKE '%q%'`: case-insensitive substring match (wildcard characters
inside `q` are not modelled). -/
def containsCI (pat s : String) : Bool :=
  decide (List.IsInfix pat.toLower.toList s.toLower.toList)

/-- The `or_(Goods.name.ilike(...), Goods.category.ilike(...))` filter; a
`NULL` category never matches. -/
def matchesQuery (q : String) (g : Goods) : Bool :=
  containsCI q g.name ||
    (match g.category with | some c => containsCI q c | none => false)

/-- The optional search filter: Python `if q:` skips it for `None` and for the
empty string. -/
def qFilter (q : Option String) (goodsList : List Goods) : List Goods :=
  match q with
  | some s => if s = "" then goodsList else goodsList.filter (matchesQuery s)
  | none => goodsList

namespace Crud

/-- The paginated result set of `crud.get_all_goods`: user filter, optional
search filter, then `offset((page_index - 1) * limit).limit(limit)` when
`limit` is truthy. -/
def pagedGoods (db : DB) (user_id limit page_index : Nat) (q : Option String) :
    List Goods :=
  let filtered := qFilter q (db.goods.filter (fun g => g.user_id == user_id))
  if limit ≠ 0 then (filtered.drop ((page_index - 1) * limit)).take limit else filtered

/-- `crud.get_all_goods` (`app/db/crud.py`): returns the page of goods and the
unpaginated match count, raising 404 when the page itself is empty. -/
def get_all_goods (db : DB) (user_id limit page_index : Nat) (q : Option String) :
    Except HTTPError (List Goods × Nat) :=
  let filtered := qFilter q (db.goods.filter (fun g => g.user_id == user_id))
  let total_count := filtered.length
  let db_goods := pagedGoods db user_id limit page_index q
  if db_goods.isEmpty then .error ⟨404, "Goods not found"⟩
  else .ok (db_goods, total_count)

end Crud

/-- Zero-pad to two digits, as in `strftime` `%d`, `%m`, `%H`, `%M`, `%S`. -/
def pad2 (n : Nat) : String :=
  if n < 10 then "0" ++ toString n else toString n

/-- Zero-pad to four digits, as in `strftime` `%Y`. -/
def pad4 (n : Nat) : String :=
  if n < 10 then "000" ++ toString n
  else if n < 100 then "00" ++ toString n
  else if n < 1000 then "0" ++ toString n
  else toString n

/-- `created_at.strftime('%d-%m-%Y %H:%M:%S')`. -/
def strftimeDMYHMS (t : DateTime) : String :=
  pad2 t.day ++ "-" ++ pad2 t.month ++ "-" ++ pad4 t.year ++ " " ++
    pad2 t.hour ++ ":" ++ pad2 t.minute ++ ":" ++ pad2 t.second

/-- Round half to even, the rounding Python's `format` applies for `.0f`. -/
def roundHalfEven (q : ℚ) : Int :=
  let f := q.floor
  let r := q - (f : ℚ)
  if r < 1/2 then f
  else if 1/2 < r then f + 1
  else if f % 2 = 0 then f else f + 1

/-- Insert thousands separators into a reversed digit list. -/
def insertCommas : List Char → List Char
  | a :: b :: c :: d :: rest => a :: b :: c :: ',' :: insertCommas (d :: rest)
  | cs => cs

/-- Python `f"{x:,.0f}"`: round to an integer and group digits in threes. -/
def formatMoney (q : ℚ) : String :=
  let n := roundHalfEven q
  let grouped := String.mk (insertCommas (toString n.natAbs).toList.reverse).reverse
  if n < 0 then "-" ++ grouped else grouped

/-- Python `good.category or 'Tidak ada kategori'` (`None` and `""` are
falsy). -/
def categoryText (c : Option String) : String :=
  match c with
  | some s => if s = "" then "Tidak ada kategori" else s
  | none => "Tidak ada kategori"

/-- One numbered entry of the goods text listing built by
`agent_tools.get_all_goods`. -/
def formatGoodsItem (idx : Nat) (g : Goods) : String :=
  let name := g.name
  let kategori := categoryText g.category
  let harga := formatMoney g.price
  let stok := g.stock_quantity
  let dibuat := strftimeDMYHMS g.created_at
  s!"{idx}. {name}\n   Kategori: {kategori}\n   Harga: Rp {harga}\n   Stok: {stok} unit\n   Dibuat: {dibuat}\n\n"

namespace AgentTools

/-- `agent_tools.get_all_goods` (`app/utils/agent_tools.py`): calls
`crud.get_all_goods` inside `try/except`; a raised `HTTPException` is rendered
as `"Error mengambil data barang: {str(e)}"`, a success as a headed text
list. -/
def get_all_goods (db : DB) (user_id limit page_index : Nat) (q : Option String) :
    String :=
  match Crud.get_all_goods db user_id limit page_index q with
  | .error e => "Error mengambil data barang: " ++ errStr e
  | .ok (goods_list, total_count) =>
    s!"Total Barang: {total_count}\nMenampilkan halaman {page_index} (Items per halaman: {limit})\n" ++
      String.mk (List.replicate 60 '=') ++ "\n\n" ++
      String.join ((goods_list.enumFrom 1).map (fun p => formatGoodsItem p.1 p.2))

end AgentTools

/-! ## The conversational agent (`app/services/agent.py`) -/

/-- A LangChain message: `SystemMessage`, `HumanMessage` or `AIMessage`. -/
inductive Turn where
  | system : String → Turn
  | human : String → Turn
  | assistant : String → Turn
deriving DecidableEq, Repr

/-- Whether a turn is a `HumanMessage`. -/
def isHumanT : Turn → Bool
  | .human _ => true
  | _ => false

/-- Whether a turn is an `AIMessage`. -/
def isAssistantT : Turn → Bool
  | .assistant _ => true
  | _ => false

/-- The conversation history consists of consecutive human/assistant pairs
(so it is even-length and alternating). -/
def pairedOk : List Turn → Bool
  | [] => true
  | [_] => false
  | t1 :: t2 :: rest => isHumanT t1 && isAssistantT t2 && pairedOk rest

/-- The memory update of `AgentService.chat`: append the human turn and the
assistant turn, then `if len(memory) > 6: memory.pop(0); memory.pop(0)`. -/
def pushPair (memory : List Turn) (humanText assistantText : String) : List Turn :=
  let m := memory ++ [Turn.human humanText, Turn.assistant assistantText]
  if 6 < m.length then m.drop 2 else m

/-- The per-user memory after a sequence of successful in-scope exchanges,
starting from the empty history `get_memory` creates. -/
def runChats (exchanges : List (String × String)) : List Turn :=
  exchanges.foldl (fun mem e => pushPair mem e.1 e.2) []

/-- `AgentService.user_memories`: the process-wide dict from user id to
conversation history. -/
structure AgentState where
  user_memories : List (String × List Turn)
deriving DecidableEq, Repr

/-- `AgentService.get_memory`: look the user up, inserting an empty history
first when absent. -/
def get_memory (st : AgentState) (user_id : String) : List Turn × AgentState :=
  match st.user_memories.lookup user_id with
  | some m => (m, st)
  | none => ([], ⟨st.user_memories ++ [(user_id, [])]⟩)

/-- Store a user's (existing) history back into the dict. -/
def setMemory (st : AgentState) (user_id : String) (m : List Turn) : AgentState :=
  ⟨st.user_memories.map (fun p => if p.1 = user_id then (p.1, m) else p)⟩

/-- The `SYSTEM_PROMPT` constant of `app/services/agent.py`. -/
def SYSTEM_PROMPT : String :=
  "Kamu adalah AI Inventory & Sales Manager Assistant khusus untuk aplikasi manajemen barang dan penjualan UMKM.\n\nTANGGUNG JAWAB ANDA:\n- Membantu user mengelola barang/inventory (melihat, menambah, mengubah, menghapus)\n- Membantu user mencatat penjualan dengan otomatis mengurangi stok barang\n- Memberikan laporan forecast/prediksi restock barang yang hampir habis\n- Memberikan saran restok terbaik berdasarkan data penjualan\n\nBATASAN KETAT:\n- HANYA membahas topik inventory, penjualan, dan forecast barang\n- TOLAK pertanyaan yang diluar konteks bisnis inventory/penjualan\n- Jangan memberikan informasi sensitif di luar domain ini\n- Jika user bertanya hal yang tidak relevan, ingatkan dengan sopan untuk fokus pada manajemen barang/penjualan\n\nINSTRUKSI PENGGUNAAN TOOLS:\n- Selalu gunakan tools yang tersedia untuk operasi data\n- Kembalikan hasil dalam bahasa Indonesia yang mudah dipahami\n- Berikan konteks dan saran bermanfaat berdasarkan data\n- Format angka dengan pemisah ribuan (Rp X.XXX)\n- Jangan membuat data fiktif - gunakan tools untuk data real\n\nTONE: Profesional, helpful, dan ramah untuk UMKM yang jarang teknologi."

/-- The fixed refusal text `AgentService.chat` returns when
`is_request_valid` rejects the prompt. -/
def refusalText : String :=
  "Maaf, saya hanya bisa membantu dengan manajemen barang dan penjualan. Silakan tanyakan tentang inventory, sales, atau forecast barang Anda. 😊"

/-- The generic failure reply of the `except` branch of `AgentService.chat`. -/
def errorReply (e : String) : String :=
  s!"Terjadi kesalahan: {e}. Silakan coba lagi atau hubungi support."

/-- `AgentService.chat` (`app/services/agent.py`). The domain gate
`is_request_valid` (whose body is not under `src/`) is taken as the `gate`
parameter, and one `agent_executor.invoke` round as the `llm` parameter
(`.ok` is a returned output, `.error` a raised exception). The result is the
reply text, the new `user_memories` state, and the number of model
invocations performed. -/
def chat (gate : String → Bool) (llm : List Turn → Except String String)
    (st : AgentState) (user_id prompt : String) : String × AgentState × Nat :=
  if !gate prompt then (refusalText, st, 0)
  else
    let res := get_memory st user_id
    let memory := res.1
    let st1 := res.2
    match llm ([Turn.system SYSTEM_PROMPT] ++ memory ++ [Turn.human prompt]) with
    | .ok output => (output, setMemory st1 user_id (pushPair memory prompt output), 1)
    | .error e => (errorReply e, st1, 1)

/-- `add_sales_wrapper` (`AgentService._setup_tools` in
`app/services/agent.py`): reports a fixed message when no database session is
bound, otherwise runs the underlying `agent_tools.add_sales` call (whose body
is not under `src/`; its outcome is the `callResult` parameter) inside
`try/except`, rendering any raised failure as
`"Error mencatat penjualan: {str(e)}"`. -/
def add_sales_wrapper (dbAvailable : Bool) (callResult : Except HTTPError String) :
    String :=
  if !dbAvailable then "Error: Database session tidak tersedia"
  else
    match callResult with
    | .ok s => s
    | .error e => "Error mencatat penjualan: " ++ errStr e

/-! ## Concrete fixtures (the spec's example scenario) -/

/-- A creation timestamp for the fixtures. -/
def createdEx : DateTime := ⟨2024, 1, 1, 0, 0, 0⟩

/-- A sale date for the fixtures. -/
def dateEx : DateTime := ⟨2025, 1, 10, 0, 0, 0⟩

/-- The spec's example goods row: price 10000, stock 5, owned by user 7. -/
def goodsEx : Goods := ⟨1, 7, "Indomie", none, 10000, 5, createdEx⟩

/-- A database holding only `goodsEx`. -/
def dbEx : DB := ⟨[goodsEx], []⟩

/-- The example goods row after the first sale: stock 2. -/
def goodsLowEx : Goods := ⟨1, 7, "Indomie", none, 10000, 2, createdEx⟩

/-- A database holding only `goodsLowEx`. -/
def dbLowEx : DB := ⟨[goodsLowEx], []⟩

/-- An empty database. -/
def dbEmpty : DB := ⟨[], []⟩

end TorMonitor

open TorMonitor

/-! ## Claim theorems -/

/-- C1: for every user, goods row owned by that user (the row the ledger's
query loads), and quantity with `stock_quantity >= quantity`,
`create_sales_with_stock_deduction` returns a new sale whose `total_profit`
equals the goods' price times the quantity, appends exactly that sale to the
sales table, and leaves the goods row with
`stock_quantity - quantity >= 0`. -/
theorem createSale_deducts_and_prices (db : DB) (goods_id : Nat) (quantity : Int)
    (sale_date : DateTime) (newId user_id : Nat) (g : Goods)
    (hg : firstGoods db goods_id user_id = some g)
    (hstock : quantity ≤ g.stock_quantity) :
    ∃ (sale : Sales) (db' : DB),
      create_sales_with_stock_deduction db goods_id quantity sale_date newId user_id =
        (.ok sale, db') ∧
      sale.total_profit = some (g.price * (quantity : ℚ)) ∧
      sale.quantity = quantity ∧ sale.user_id = user_id ∧ sale.goods_id = goods_id ∧
      db'.sales = db.sales ++ [sale] ∧
      (∀ x ∈ db'.goods, x.id = g.id → x.stock_quantity = g.stock_quantity - quantity) ∧
      0 ≤ g.stock_quantity - quantity := by
  unfold create_sales_with_stock_deduction
  rw [hg]
  dsimp only
  rw [if_neg (not_lt.mpr hstock)]
  refine ⟨_, _, rfl, rfl, rfl, rfl, rfl, rfl, ?_, by omega⟩
  intro x hx hid
  rcases List.mem_map.mp hx with ⟨y, hy, rfl⟩
  by_cases h : (y.id == g.id) = true
  · simp [h]
  · simp only [h, if_false] at hid ⊢
    exact absurd (by simpa using hid) (by simpa using h)

/-- C1 witness: the spec's example — price 10000, stock 5, quantity 3. -/
theorem createSale_deducts_and_prices_witness :
    ∃ (sale : Sales) (db' : DB),
      create_sales_with_stock_deduction dbEx 1 3 dateEx 99 7 = (.ok sale, db') ∧
      sale.total_profit = some (goodsEx.price * ((3 : Int) : ℚ)) ∧
      sale.quantity = 3 ∧ sale.user_id = 7 ∧ sale.goods_id = 1 ∧
      db'.sales = dbEx.sales ++ [sale] ∧
      (∀ x ∈ db'.goods, x.id = goodsEx.id → x.stock_quantity = goodsEx.stock_quantity - 3) ∧
      0 ≤ goodsEx.stock_quantity - 3 :=
  createSale_deducts_and_prices dbEx 1 3 dateEx 99 7 goodsEx (by decide) (by decide)

/-- C2: when the goods row exists for the caller but
`stock_quantity < quantity`, the ledger fails with the insufficient-stock
message reporting the available and requested amounts, and the database
(goods rows and sales table alike) is exactly the one before the call. -/
theorem createSale_insufficient_stock_rejects (db : DB) (goods_id : Nat)
    (quantity : Int) (sale_date : DateTime) (newId user_id : Nat) (g : Goods)
    (hg : firstGoods db goods_id user_id = some g)
    (hlt : g.stock_quantity < quantity) :
    create_sales_with_stock_deduction db goods_id quantity sale_date newId user_id =
      (.error ⟨400, insufficientMsg g.stock_quantity quantity⟩, db) := by
  unfold create_sales_with_stock_deduction
  rw [hg]
  dsimp only
  rw [if_pos hlt]

/-- C2 witness: the spec's second example — stock 2, requested 3; the error
message spells out both amounts and the database is untouched. -/
theorem createSale_insufficient_stock_rejects_witness :
    create_sales_with_stock_deduction dbLowEx 1 3 dateEx 99 7 =
      (.error ⟨400, insufficientMsg 2 3⟩, dbLowEx) ∧
    insufficientMsg 2 3 = "Insufficient stock. Available: 2, Requested: 3" :=
  ⟨createSale_insufficient_stock_rejects dbLowEx 1 3 dateEx 99 7 goodsLowEx
      (by decide) (by decide),
   by decide⟩

/-- C3 (code bug): `create_sales_with_stock_deduction` never checks
`quantity > 0`. At quantity `-2` against stock 5 the call succeeds, records a
sale with `total_profit = -20000`, and *increases* the stock to 7 —
contradicting the claimed `InvalidInput` rejection (and the function's own
docstring, which says it deducts stock). -/
theorem createSale_accepts_negative_quantity :
    create_sales_with_stock_deduction dbEx 1 (-2) dateEx 99 7 =
      (.ok ⟨99, 7, 1, -2, dateEx, some (-20000)⟩,
       ⟨[⟨1, 7, "Indomie", none, 10000, 7, createdEx⟩],
        [⟨99, 7, 1, -2, dateEx, some (-20000)⟩]⟩) := by
  norm_num [create_sales_with_stock_deduction, firstGoods, dbEx, goodsEx,
    insufficientMsg]

/-- C4 counterexample: the HTTP `POST /api/sales/` route is an exposed
sale-creation path that does not go through the stock ledger — on the spec's
example database it inserts the sale row with `total_profit` unset while the
goods table (stock 5) is left untouched. -/
theorem router_create_sales_bypasses_ledger :
    router_create_sales dbEx ⟨1, 3, dateEx⟩ 7 99 =
      (⟨[goodsEx], [⟨99, 7, 1, 3, dateEx, none⟩]⟩, "Sales created successfully") := by
  decide

/-- C4 amended: the ledger `create_sales_with_stock_deduction` does deduct the
sold quantity and set `total_profit` at creation time, but it is not the only
exposed sale-creation path: the HTTP `create_sales` route inserts a sale row
directly, changing no goods row and leaving `total_profit` unset. -/
theorem ledger_deducts_but_router_bypasses :
    (∀ (db : DB) (goods_id : Nat) (quantity : Int) (sale_date : DateTime)
        (newId user_id : Nat) (g : Goods),
        firstGoods db goods_id user_id = some g →
        ¬ g.stock_quantity < quantity →
        ∃ (sale : Sales) (db' : DB),
          create_sales_with_stock_deduction db goods_id quantity sale_date newId user_id =
            (.ok sale, db') ∧
          sale.total_profit = some (g.price * (quantity : ℚ)) ∧
          (∀ x ∈ db'.goods, x.id = g.id → x.stock_quantity = g.stock_quantity - quantity)) ∧
    (∀ (db : DB) (sc : SalesCreate) (user_id newId : Nat),
        ((router_create_sales db sc user_id newId).1).goods = db.goods ∧
        ((router_create_sales db sc user_id newId).1).sales =
          db.sales ++ [{ id := newId, user_id := user_id, goods_id := sc.goods_id,
                         quantity := sc.quantity, sale_date := sc.sale_date,
                         total_profit := none }]) := by
  constructor
  · intro db goods_id quantity sale_date newId user_id g hg hnot
    unfold create_sales_with_stock_deduction
    rw [hg]
    dsimp only
    rw [if_neg hnot]
    refine ⟨_, _, rfl, rfl, ?_⟩
    intro x hx hid
    rcases List.mem_map.mp hx with ⟨y, hy, rfl⟩
    by_cases h : (y.id == g.id) = true
    · simp [h]
    · simp only [h, if_false] at hid ⊢
      exact absurd (by simpa using hid) (by simpa using h)
  · intro db sc user_id newId
    exact ⟨rfl, rfl⟩

/-- C4 witness: both conjuncts at the spec's example database. -/
theorem ledger_deducts_but_router_bypasses_witness :
    (∃ (sale : Sales) (db' : DB),
        create_sales_with_stock_deduction dbEx 1 3 dateEx 99 7 = (.ok sale, db') ∧
        sale.total_profit = some (goodsEx.price * ((3 : Int) : ℚ)) ∧
        (∀ x ∈ db'.goods, x.id = goodsEx.id →
          x.stock_quantity = goodsEx.stock_quantity - 3)) ∧
    (((router_create_sales dbEx ⟨1, 3, dateEx⟩ 7 99).1).goods = dbEx.goods ∧
      ((router_create_sales dbEx ⟨1, 3, dateEx⟩ 7 99).1).sales =
        dbEx.sales ++ [⟨99, 7, 1, 3, dateEx, none⟩]) :=
  ⟨ledger_deducts_but_router_bypasses.1 dbEx 1 3 dateEx 99 7 goodsEx
      (by decide) (by decide),
   ledger_deducts_but_router_bypasses.2 dbEx ⟨1, 3, dateEx⟩ 7 99⟩

/-- C5: a sale's `total_profit` is fixed at creation. `update_db_element` on a
sale can only touch `quantity` and `sale_date` (the `SalesUpdate` schema has
no other field), and updating a goods row (price included) rewrites no sales
row at all. -/
theorem sales_profit_snapshot :
    (∀ (s : Sales) (u : SalesUpdate),
        (update_db_element_sales s u).total_profit = s.total_profit) ∧
    (∀ (db : DB) (sales_id : Nat) (u : SalesUpdate),
        (update_sales_in_db db sales_id u).sales.map Sales.total_profit =
          db.sales.map Sales.total_profit) ∧
    (∀ (db : DB) (goods_id : Nat) (u : GoodsUpdate),
        (update_goods_in_db db goods_id u).sales = db.sales) := by
  refine ⟨fun s u => rfl, fun db sid u => ?_, fun db gid u => rfl⟩
  unfold update_sales_in_db
  rw [List.map_map]
  apply List.map_congr_left
  intro a _
  show Sales.total_profit (if (a.id == sid) = true then update_db_element_sales a u else a) =
    a.total_profit
  split <;> rfl

/-- Appending one human/assistant pair preserves the pairing invariant. -/
theorem pairedOk_append_pair (mem : List Turn) (h a : String)
    (hp : pairedOk mem = true) :
    pairedOk (mem ++ [Turn.human h, Turn.assistant a]) = true := by
  induction mem using pairedOk.induct with
  | case1 => simp [pairedOk, isHumanT, isAssistantT]
  | case2 t => simp [pairedOk] at hp
  | case3 t1 t2 rest ih =>
    rw [List.cons_append, List.cons_append]
    rw [show pairedOk (t1 :: t2 :: rest) =
        (isHumanT t1 && isAssistantT t2 && pairedOk rest) from rfl] at hp
    rw [show pairedOk (t1 :: t2 :: (rest ++ [Turn.human h, Turn.assistant a])) =
        (isHumanT t1 && isAssistantT t2 &&
          pairedOk (rest ++ [Turn.human h, Turn.assistant a])) from rfl]
    simp only [Bool.and_eq_true] at hp ⊢
    exact ⟨hp.1, ih hp.2⟩

/-- The tail past the first pair of a paired history is paired. -/
theorem pairedOk_of_cons_cons (t1 t2 : Turn) (rest : List Turn)
    (hp : pairedOk (t1 :: t2 :: rest) = true) : pairedOk rest = true := by
  rw [show pairedOk (t1 :: t2 :: rest) =
      (isHumanT t1 && isAssistantT t2 && pairedOk rest) from rfl] at hp
  simp only [Bool.and_eq_true] at hp
  exact hp.2

/-- A paired history has even length. -/
theorem pairedOk_length_even (mem : List Turn) (hp : pairedOk mem = true) :
    mem.length % 2 = 0 := by
  induction mem using pairedOk.induct with
  | case1 => rfl
  | case2 t => simp [pairedOk] at hp
  | case3 t1 t2 rest ih =>
    have := ih (pairedOk_of_cons_cons t1 t2 rest hp)
    simp only [List.length_cons]
    omega

/-- One chat exchange keeps the history capped at 6 and paired. -/
theorem pushPair_invariant (mem : List Turn) (h a : String)
    (hlen : mem.length ≤ 6) (hp : pairedOk mem = true) :
    (pushPair mem h a).length ≤ 6 ∧ pairedOk (pushPair mem h a) = true := by
  unfold pushPair
  by_cases hc : 6 < (mem ++ [Turn.human h, Turn.assistant a]).length
  · rw [if_pos hc]
    refine ⟨?_, ?_⟩
    · simp only [List.length_drop, List.length_append, List.length_cons,
        List.length_nil] at hc ⊢
      omega
    · rcases mem with _ | ⟨t1, mem1⟩
      · simp at hc
      rcases mem1 with _ | ⟨t2, rest⟩
      · simp [pairedOk] at hp
      rw [show ((t1 :: t2 :: rest) ++ [Turn.human h, Turn.assistant a]).drop 2 =
          rest ++ [Turn.human h, Turn.assistant a] from rfl]
      exact pairedOk_append_pair rest h a (pairedOk_of_cons_cons t1 t2 rest hp)
  · rw [if_neg hc]
    refine ⟨?_, pairedOk_append_pair mem h a hp⟩
    simp only [not_lt, List.length_append, List.length_cons, List.length_nil] at hc ⊢
    omega

/-- A six-entry example history (three completed exchanges). -/
def mem6ex : List Turn :=
  [.human "p1", .assistant "r1", .human "p2", .assistant "r2",
   .human "p3", .assistant "r3"]

/-- C6: after any sequence of in-scope exchanges the per-user history has at
most 6 entries, even length, and consists of alternating human/assistant
pairs; and whenever appending a new pair pushes the length past 6, exactly
the two oldest entries (positions 0 and 1) are evicted, the new pair going to
the back. -/
theorem conversation_memory_cap :
    (∀ exchanges : List (String × String),
        (runChats exchanges).length ≤ 6 ∧
        (runChats exchanges).length % 2 = 0 ∧
        pairedOk (runChats exchanges) = true) ∧
    (∀ (mem : List Turn) (h a : String),
        6 < (mem ++ [Turn.human h, Turn.assistant a]).length →
        pushPair mem h a = mem.drop 2 ++ [Turn.human h, Turn.assistant a]) := by
  constructor
  · intro exchanges
    suffices hmain : ∀ mem : List Turn, mem.length ≤ 6 → pairedOk mem = true →
        (exchanges.foldl (fun m e => pushPair m e.1 e.2) mem).length ≤ 6 ∧
        pairedOk (exchanges.foldl (fun m e => pushPair m e.1 e.2) mem) = true by
      have h := hmain [] (by simp) rfl
      exact ⟨h.1, pairedOk_length_even _ h.2, h.2⟩
    induction exchanges with
    | nil => intro mem h1 h2; exact ⟨h1, h2⟩
    | cons e rest ih =>
      intro mem h1 h2
      have h3 := pushPair_invariant mem e.1 e.2 h1 h2
      exact ih (pushPair mem e.1 e.2) h3.1 h3.2
  · intro mem h a hc
    unfold pushPair
    rw [if_pos hc]
    apply List.drop_append_of_le_length
    simp only [List.length_append, List.length_cons, List.length_nil] at hc
    omega

/-- C6 witness: four exchanges leave six entries (the first pair evicted),
and pushing a fourth pair onto a full six-entry history drops exactly the
oldest pair. -/
theorem conversation_memory_cap_witness :
    ((runChats [("p1", "r1"), ("p2", "r2"), ("p3", "r3"), ("p4", "r4")]).length ≤ 6 ∧
     (runChats [("p1", "r1"), ("p2", "r2"), ("p3", "r3"), ("p4", "r4")]).length % 2 = 0 ∧
     pairedOk (runChats [("p1", "r1"), ("p2", "r2"), ("p3", "r3"), ("p4", "r4")]) = true) ∧
    pushPair mem6ex "p4" "r4" = mem6ex.drop 2 ++ [Turn.human "p4", Turn.assistant "r4"] :=
  ⟨conversation_memory_cap.1 [("p1", "r1"), ("p2", "r2"), ("p3", "r3"), ("p4", "r4")],
   conversation_memory_cap.2 mem6ex "p4" "r4" (by decide)⟩

/-- C7: whenever the domain gate classifies the prompt out-of-scope,
`chat` returns the fixed refusal text, leaves the whole memory state (every
user's history) unchanged, and performs zero model invocations. -/
theorem chat_rejects_out_of_scope (gate : String → Bool)
    (llm : List Turn → Except String String) (st : AgentState)
    (user_id prompt : String) (h : gate prompt = false) :
    chat gate llm st user_id prompt = (refusalText, st, 0) := by
  unfold chat
  rw [h]
  rfl

/-- C7 witness: an always-rejecting gate at a concrete state. -/
theorem chat_rejects_out_of_scope_witness :
    chat (fun _ => false) (fun _ => .ok "jawaban") ⟨[("7", mem6ex)]⟩ "7"
        "siapa presiden indonesia" =
      (refusalText, ⟨[("7", mem6ex)]⟩, 0) :=
  chat_rejects_out_of_scope (fun _ => false) (fun _ => .ok "jawaban")
    ⟨[("7", mem6ex)]⟩ "7" "siapa presiden indonesia" rfl

/-- Summing the non-null values equals summing with nulls read as 0. -/
theorem sum_filterMap_eq_sum_getD (xs : List (Option ℚ)) :
    (xs.filterMap id).sum = (xs.map (fun o => o.getD 0)).sum := by
  induction xs with
  | nil => rfl
  | cons x rest ih => cases x <;> simp [ih]

/-- C8: `get_monthly_revenue` returns exactly the sum of `total_profit` over
the user's sales dated in the given calendar month, and 0 (a value, not an
error) when no sales match. -/
theorem monthly_revenue_sums_month :
    (∀ (db : DB) (user_id year month : Nat),
        get_monthly_revenue db user_id year month =
          monthlyRevenue_spec db user_id year month) ∧
    (∀ (db : DB) (user_id year month : Nat),
        monthSales db user_id year month = [] →
        get_monthly_revenue db user_id year month = 0) := by
  have main : ∀ (db : DB) (uid y m : Nat),
      get_monthly_revenue db uid y m = monthlyRevenue_spec db uid y m := by
    intro db uid y m
    unfold get_monthly_revenue monthlyRevenue_spec sqlSum
    rw [show ((monthSales db uid y m).map (fun s => (s.total_profit).getD 0)) =
        (((monthSales db uid y m).map (fun s => s.total_profit)).map
          (fun o => o.getD 0)) from by rw [List.map_map]; rfl]
    rw [← sum_filterMap_eq_sum_getD]
    by_cases he : (((monthSales db uid y m).map (fun s => s.total_profit)).filterMap id).isEmpty
    · rw [if_pos he]
      rw [List.isEmpty_iff.mp he]
      rfl
    · rw [if_neg he]
      dsimp only
      simp only [beq_iff_eq]
      by_cases hz :
          (((monthSales db uid y m).map (fun s => s.total_profit)).filterMap id).sum = 0
      · rw [if_pos hz, hz]
      · rw [if_neg hz]
  refine ⟨main, fun db uid y m hm => ?_⟩
  rw [main]
  unfold monthlyRevenue_spec
  rw [hm]
  rfl

/-- The spec's revenue example: sales of 30000 and 45000 in 2025-01. -/
def dbRevEx : DB :=
  ⟨[], [⟨1, 7, 1, 3, dateEx, some 30000⟩,
        ⟨2, 7, 1, 3, ⟨2025, 1, 20, 0, 0, 0⟩, some 45000⟩]⟩

/-- C8 witness: the example database, and an empty month yielding 0. -/
theorem monthly_revenue_sums_month_witness :
    get_monthly_revenue dbRevEx 7 2025 1 = monthlyRevenue_spec dbRevEx 7 2025 1 ∧
    get_monthly_revenue dbEmpty 7 2025 1 = 0 :=
  ⟨monthly_revenue_sums_month.1 dbRevEx 7 2025 1,
   monthly_revenue_sums_month.2 dbEmpty 7 2025 1 (by decide)⟩

/-- C9: the tool wrappers convert every failure of the underlying domain call
into a descriptive text result. `add_sales_wrapper` renders any raised
failure (`NotFound` included) as `"Error mencatat penjualan: ..."` text, and
the goods-list tool renders a failing `crud.get_all_goods` as
`"Error mengambil data barang: ..."` text; both are total, String-valued
functions, so no exception ever reaches the orchestration loop. -/
theorem tool_wrappers_contain_failures :
    (∀ e : HTTPError,
        add_sales_wrapper true (.error e) = "Error mencatat penjualan: " ++ errStr e) ∧
    (∀ (db : DB) (user_id limit page_index : Nat) (q : Option String) (e : HTTPError),
        Crud.get_all_goods db user_id limit page_index q = .error e →
        AgentTools.get_all_goods db user_id limit page_index q =
          "Error mengambil data barang: " ++ errStr e) := by
  constructor
  · intro e; rfl
  · intro db uid l p q e h
    unfold AgentTools.get_all_goods
    rw [h]

/-- C9 witness: a `NotFound` from the underlying call, and the goods-list
tool over an empty database. -/
theorem tool_wrappers_contain_failures_witness :
    add_sales_wrapper true (.error ⟨404, "Goods not found"⟩) =
      "Error mencatat penjualan: " ++ errStr ⟨404, "Goods not found"⟩ ∧
    AgentTools.get_all_goods dbEmpty 7 10 1 none =
      "Error mengambil data barang: " ++ errStr ⟨404, "Goods not found"⟩ :=
  ⟨tool_wrappers_contain_failures.1 ⟨404, "Goods not found"⟩,
   tool_wrappers_contain_failures.2 dbEmpty 7 10 1 none ⟨404, "Goods not found"⟩
     (by decide)⟩

/-- C10: when the (searched, paginated) goods page comes back empty — in
particular for a user who owns no goods at all — `crud.get_all_goods` raises
404 "Goods not found" instead of returning an empty list, and the agent's
goods-list tool therefore renders an error text instead of an empty
listing. -/
theorem empty_goods_list_is_not_found :
    (∀ (db : DB) (user_id limit page_index : Nat) (q : Option String),
        Crud.pagedGoods db user_id limit page_index q = [] →
        Crud.get_all_goods db user_id limit page_index q =
          .error ⟨404, "Goods not found"⟩) ∧
    (∀ (db : DB) (user_id limit page_index : Nat) (q : Option String),
        db.goods.filter (fun g => g.user_id == user_id) = [] →
        Crud.pagedGoods db user_id limit page_index q = []) ∧
    (∀ (db : DB) (user_id limit page_index : Nat) (q : Option String),
        Crud.get_all_goods db user_id limit page_index q =
          .error ⟨404, "Goods not found"⟩ →
        AgentTools.get_all_goods db user_id limit page_index q =
          "Error mengambil data barang: 404: Goods not found") := by
  refine ⟨?_, ?_, ?_⟩
  · intro db uid l p q h
    unfold Crud.get_all_goods
    rw [h]
    rfl
  · intro db uid l p q h
    unfold Crud.pagedGoods
    rw [h]
    have hq : qFilter q [] = [] := by
      unfold qFilter
      cases q with
      | none => rfl
      | some s => by_cases hs : s = "" <;> simp [hs]
    rw [hq]
    split <;> simp
  · intro db uid l p q h
    unfold AgentTools.get_all_goods
    rw [h]
    rfl

/-- C10 witness: a user owning no goods gets 404 from the listing and an
error text from the tool. -/
theorem empty_goods_list_is_not_found_witness :
    Crud.pagedGoods dbEmpty 7 10 1 none = [] ∧
    Crud.get_all_goods dbEmpty 7 10 1 none = .error ⟨404, "Goods not found"⟩ ∧
    AgentTools.get_all_goods dbEmpty 7 10 1 none =
      "Error mengambil data barang: 404: Goods not found" :=
  ⟨empty_goods_list_is_not_found.2.1 dbEmpty 7 10 1 none (by decide),
   empty_goods_list_is_not_found.1 dbEmpty 7 10 1 none (by decide),
   empty_goods_list_is_not_found.2.2 dbEmpty 7 10 1 none (by decide)⟩
